import Mathlib

/-!
Shallow embedding of `src/qpod/proxy/handlers.py` (qpod-hub local reverse
proxy): request forwarding (`LocalProxyHandler.proxy`,
`_build_proxy_request`, `_get_context_path`), the WebSocket `open` path,
and single-flight process supervision
(`SuperviseAndProxyHandler.ensure_process`).

Conventions of the embedding:
- Header collections are association lists of (name, value) pairs.
  Tornado's `HTTPHeaders` normalizes header names to canonical
  `Http-Header-Case` on insertion, so the embedding assumes names are
  already in that canonical form and compares them literally.
- Python exceptions become an explicit error type `PyError`; a coroutine
  that can raise returns `Except PyError _`.
- Byte strings are `List Nat`; Python truthiness of a byte string is
  emptiness, of a string is `≠ ""`, of an exception object is `True`.
-/

namespace QPod

abbrev Header := String × String
abbrev Headers := List Header
abbrev Bytes := List Nat

/-- `del headers[name]` (no-op when absent, like the guarded `del` in `proxy`). -/
def removeHeader (hs : Headers) (name : String) : Headers :=
  hs.filter (fun p => p.1 != name)

/-- `headers[name] = v`: tornado dict-style assignment replaces any
existing values for `name`. -/
def setHeader (hs : Headers) (name v : String) : Headers :=
  removeHeader hs name ++ [(name, v)]

/-- `headers.get(name, dflt)`. -/
def getHeaderD (hs : Headers) (name dflt : String) : String :=
  match hs.find? (fun p => p.1 == name) with
  | some p => p.2
  | none => dflt

/-- `name in headers`. -/
def hasHeader (hs : Headers) (name : String) : Bool :=
  hs.any (fun p => p.1 == name)

/-- Python `str.lower()` (the code compares ASCII header tokens). -/
def lowerAscii (s : String) : String :=
  String.mk (s.data.map Char.toLower)

/-- Python `str.startswith('/')`. -/
def startsWithSlash (s : String) : Bool :=
  match s.data with
  | [] => false
  | c :: _ => c == '/'

def trimSlashes (s : String) : String :=
  String.mk (((s.toList.dropWhile (fun c => c == '/')).reverse.dropWhile
      (fun c => c == '/')).reverse)

/-- Modelled from the spec: `url_path_join` lives in the repository's
`utils` module, which is not under `src/`. The spec describes the
resolved context paths as the joins `base/proxy_base` and
`base/proxy/port` of their components: pieces are joined with single
`/` separators (redundant slashes at piece boundaries dropped, empty
pieces skipped), and a leading slash on the first piece is preserved. -/
def url_path_join (pieces : List String) : String :=
  let joined := String.intercalate "/" ((pieces.map trimSlashes).filter (fun s => s != ""))
  if startsWithSlash (pieces.headD "") then "/" ++ joined else joined

/-- Python exceptions that the embedded code can raise. -/
inductive PyError
  | valueError (msg : String)
  | httpError (status : Nat) (msg : String)
  | exn (msg : String)
deriving DecidableEq, Repr

/-- The handler configuration consulted by path resolution:
`self.base_url`, `self.proxy_base` (set to `''` in `__init__`),
`self.rewrite` (`'/'` by default; `''` means absolute rewriting). -/
structure HandlerCfg where
  base_url : String
  proxy_base : String
  rewrite : String
deriving DecidableEq, Repr

/-- `LocalProxyHandler._get_context_path`: `{base_url}/{proxy_base}` when a
proxy base is configured (truthy), else `{base_url}/proxy/{port}` when the
rewrite mode is `'/'` or `''`; any other rewrite raises `ValueError`. -/
def get_context_path (cfg : HandlerCfg) (port : Nat) : Except PyError String :=
  if cfg.proxy_base ≠ "" then
    .ok (url_path_join [cfg.base_url, cfg.proxy_base])
  else if cfg.rewrite = "/" ∨ cfg.rewrite = "" then
    .ok (url_path_join [cfg.base_url, "proxy", toString port])
  else
    .error (.valueError ("Unsupported rewrite: \"" ++ cfg.rewrite ++ "\""))

/-- The inbound request fields the embedded code reads:
`self.request.method`, `self.request.headers`, `self.request.body`,
`self.request.query`. -/
structure InboundRequest where
  method : String
  headers : Headers
  body : Bytes
  query : String
deriving DecidableEq, Repr

/-- The outbound `tornado.httpclient.HTTPRequest` built for the backend. -/
structure OutRequest where
  uri : String
  method : String
  body : Option Bytes
  headers : Headers
  follow_redirects : Bool
deriving DecidableEq, Repr

/-- `LocalProxyHandler.proxy_request_headers`: a copy of the inbound
request headers. -/
def proxy_request_headers (req : InboundRequest) : Headers :=
  req.headers

/-- `LocalProxyHandler._build_proxy_request`: resolve the context path,
pick the client path (`proxied_path` unchanged when `rewrite` is truthy,
else context-prefixed), build `http://localhost:{port}{path}` plus the
query string, and in truthy-rewrite mode inject the two context headers. -/
def build_proxy_request (cfg : HandlerCfg) (req : InboundRequest) (port : Nat)
    (proxied_path : String) (body : Option Bytes) : Except PyError OutRequest :=
  match get_context_path cfg port with
  | .error e => .error e
  | .ok context_path =>
    let client_path := if cfg.rewrite ≠ "" then proxied_path
      else url_path_join [context_path, proxied_path]
    let base_uri := "http://localhost:" ++ toString port ++ client_path
    let client_uri := if req.query ≠ "" then base_uri ++ "?" ++ req.query else base_uri
    let hs := proxy_request_headers req
    let hs := if cfg.rewrite ≠ "" then
        setHeader (setHeader hs "X-Forwarded-Context" context_path)
          "X-ProxyContextPath" context_path
      else hs
    .ok { uri := client_uri, method := req.method, body := body, headers := hs,
          follow_redirects := false }

/-- The error attached to a tornado `HTTPResponse` fetched with
`raise_error=False`: `httpclient.HTTPError` for non-2xx statuses, any
other exception (connection refused, reset, ...) for transport failures;
`str(error)` of a transport failure is its textual description. -/
inductive FetchError
  | httpError (code : Nat)
  | transport (desc : String)
deriving DecidableEq, Repr

/-- The backend `HTTPResponse` as observed by `proxy` after
`client.fetch(req, raise_error=False)`. -/
structure FetchResp where
  code : Nat
  reason : String
  headers : Headers
  body : Bytes
  error : Option FetchError
deriving DecidableEq, Repr

/-- One `self.write(...)` call: tornado accepts str or bytes chunks. -/
inductive Chunk
  | text (s : String)
  | bytes (b : Bytes)
deriving DecidableEq, Repr

/-- What the `proxy` coroutine produced: the outbound request handed to
the HTTP client, the sequence of `set_status` calls (status, reason
argument), the headers the handler added, and the body chunks written. -/
structure ProxyResult where
  outReq : OutRequest
  statusHistory : List (Nat × Option String)
  headers : Headers
  chunks : List Chunk
deriving DecidableEq, Repr

/-- The response status the client observes: the last `set_status` call,
or tornado's default 200 if none was made. -/
def finalStatus (r : ProxyResult) : Nat :=
  match r.statusHistory.getLast? with
  | some p => p.1
  | none => 200

/-- The reason argument of the last `set_status` call (`none` lets
tornado derive the standard reason phrase). -/
def finalReason (r : ProxyResult) : Option String :=
  match r.statusHistory.getLast? with
  | some p => p.2
  | none => none

/-- Lines 267-272 of `proxy`: `body = self.request.body; if not body:
body = b'' if method == 'POST' else None`. -/
def computeBody (method : String) (body : Bytes) : Option Bytes :=
  if body = [] then
    if method = "POST" then some ([] : Bytes) else none
  else some body

/-- The response headers `proxy` refuses to copy back from the backend. -/
def responseStripHeaders : List String :=
  ["Content-Length", "Transfer-Encoding", "Content-Encoding", "Connection"]

/-- `LocalProxyHandler.proxy`: delete `Proxy-Connection`, set status 500 if
the `Upgrade` header asks for a websocket, derive the body, build the
outbound request (a raised `ValueError` propagates), fetch, then either
report a transport failure as 500 with `str(error)` as the body, or relay
the backend status/reason/headers (hop-by-hop headers stripped) and body.
The fetched response is passed in as `resp`. -/
def proxy (cfg : HandlerCfg) (req : InboundRequest) (port : Nat)
    (proxied_path : String) (resp : FetchResp) : Except PyError ProxyResult :=
  let hs := removeHeader req.headers "Proxy-Connection"
  let hist0 : List (Nat × Option String) :=
    if lowerAscii (getHeaderD hs "Upgrade" "") = "websocket" then [(500, none)] else []
  let body := computeBody req.method req.body
  match build_proxy_request cfg { req with headers := hs } port proxied_path body with
  | .error e => .error e
  | .ok outReq =>
    match resp.error with
    | some (.transport d) =>
      .ok { outReq := outReq, statusHistory := hist0 ++ [(500, none)],
            headers := [], chunks := [Chunk.text d] }
    | _ =>
      .ok { outReq := outReq,
            statusHistory := hist0 ++ [(resp.code, some resp.reason)],
            headers := resp.headers.filter
              (fun p => decide (p.1 ∉ responseStripHeaders)),
            chunks := if resp.body = [] then [] else [Chunk.bytes resp.body] }

/-- The outbound websocket `HTTPRequest` built by `LocalProxyHandler.open`
and connected by `start_websocket_connection`. -/
structure WSRequest where
  url : String
  headers : Headers
deriving DecidableEq, Repr

/-- The client URI computed in `open`: normalize the proxied path to start
with `/`, then `ws://127.0.0.1:{port}{path}` plus the query string. -/
def wsClientUri (port : Nat) (proxied_path query : String) : String :=
  let path := if startsWithSlash proxied_path then proxied_path else "/" ++ proxied_path
  let uri := "ws://127.0.0.1:" ++ toString port ++ path
  if query ≠ "" then uri ++ "?" ++ query else uri

/-- `LocalProxyHandler.open` (via `start_websocket_connection`): the
outbound connection request carries the computed client URI and the
original request headers. -/
def openRequest (req : InboundRequest) (port : Nat) (proxied_path : String) : WSRequest :=
  { url := wsClientUri port proxied_path req.query, headers := req.headers }

/-! ## Process supervision (`SuperviseAndProxyHandler`) -/

/-- Outcome of `proc.start()` — the external `SupervisedProcess` primitive
either returns or raises. -/
inductive StartRes
  | ok
  | raise (msg : String)
deriving DecidableEq, Repr

/-- Outcome of `await proc.ready()`: a boolean, or a raised exception. -/
inductive ReadyRes
  | ready (b : Bool)
  | raise (msg : String)
deriving DecidableEq, Repr

/-- Outcome of `await proc.kill()`. -/
inductive KillRes
  | ok
  | raise (msg : String)
deriving DecidableEq, Repr

/-- The behavior of the external process primitive for one spawn attempt
(spec §6: `start()`, `ready() -> bool`, `kill()` are consumed as an
authoritative external contract). -/
structure ProcBehavior where
  start : StartRes
  ready : ReadyRes
  kill : KillRes
deriving DecidableEq, Repr

/-- The per-target `state` dict as `ensure_process` uses it: the optional
`'proc'` entry (`none` means the key is absent). -/
structure SupState where
  proc : Option ProcBehavior
deriving DecidableEq, Repr

/-- Result of one `ensure_process` call: the state dict afterwards,
normal return or raised error, and whether `proc.start()` / `proc.kill()`
were invoked during the call. -/
structure EnsureResult where
  newState : SupState
  outcome : Except PyError Unit
  spawned : Bool
  killed : Bool

/-- `SuperviseAndProxyHandler.get_timeout`: readiness timeout in time
units, default 5. -/
def get_timeout : Nat := 5

/-- Modelled from the spec: the readiness wait inside the external
`SupervisedProcess` (the `simpervisor` dependency, not under `src/`) polls
the readiness probe once per time unit until it reports ready or until
`timeout` time units have elapsed; `ready()` returns whether some poll
before the timeout succeeded. -/
def readyPoll (probe : Nat → Bool) (timeout : Nat) : Bool :=
  (List.range timeout).any probe

/-- `SuperviseAndProxyHandler.ensure_process` under the per-target lock:
if `'proc'` is already in the state, return immediately; otherwise store
the handle, `start()`, await `ready()`; when not ready, `kill()` and raise
`HTTPError(500, 'could not start {name} in time')`; on any exception out
of the `try` block, delete `'proc'` from the state and re-raise. -/
def ensure_process (name : String) (b : ProcBehavior) (s : SupState) : EnsureResult :=
  match s.proc with
  | some _ => { newState := s, outcome := .ok (), spawned := false, killed := false }
  | none =>
    match b.start with
    | .raise m =>
      { newState := { proc := none }, outcome := .error (.exn m),
        spawned := true, killed := false }
    | .ok =>
      match b.ready with
      | .raise m =>
        { newState := { proc := none }, outcome := .error (.exn m),
          spawned := true, killed := false }
      | .ready true =>
        { newState := { proc := some b }, outcome := .ok (),
          spawned := true, killed := false }
      | .ready false =>
        match b.kill with
        | .raise m =>
          { newState := { proc := none }, outcome := .error (.exn m),
            spawned := true, killed := true }
        | .ok =>
          { newState := { proc := none },
            outcome := .error (.httpError 500
              ("could not start " ++ name ++ " in time")),
            spawned := true, killed := true }

/-- Run a sequence of `ensure_process` calls on the same target,
threading the state and counting how many calls invoked `proc.start()`. -/
def runEnsure (name : String) : List ProcBehavior → SupState → SupState × Nat
  | [], s => (s, 0)
  | b :: bs, s =>
    let r := ensure_process name b s
    let rest := runEnsure name bs r.newState
    (rest.1, (if r.spawned then 1 else 0) + rest.2)

/-- Number of spawns over a sequence of `ensure_process` calls. -/
def spawnCount (name : String) (bs : List ProcBehavior) (s : SupState) : Nat :=
  (runEnsure name bs s).2

/-! ## Supervision lemmas and claims -/

theorem ensure_absent_spawns (name : String) (b : ProcBehavior) :
    (ensure_process name b { proc := none }).spawned = true := by
  obtain ⟨st, rd, kl⟩ := b
  cases st with
  | raise m => rfl
  | ok =>
    cases rd with
    | raise m => rfl
    | ready br =>
      cases br with
      | true => rfl
      | false =>
        cases kl with
        | raise m => rfl
        | ok => rfl

theorem ensure_ok_proc_isSome (name : String) (b : ProcBehavior) (s : SupState)
    (h : (ensure_process name b s).outcome = .ok ()) :
    (ensure_process name b s).newState.proc.isSome = true := by
  obtain ⟨p⟩ := s
  cases p with
  | some q => rfl
  | none =>
    obtain ⟨st, rd, kl⟩ := b
    cases st with
    | raise m => simp [ensure_process] at h
    | ok =>
      cases rd with
      | raise m => simp [ensure_process] at h
      | ready br =>
        cases br with
        | true => rfl
        | false =>
          cases kl with
          | raise m => simp [ensure_process] at h
          | ok => simp [ensure_process] at h

theorem runEnsure_present (name : String) (bs : List ProcBehavior) (p : ProcBehavior) :
    runEnsure name bs { proc := some p } = ({ proc := some p }, 0) := by
  induction bs with
  | nil => rfl
  | cons b bs ih => simp [runEnsure, ensure_process, ih]

/-- Claim C1: on every failure of `ensure_process` — a spawn error raised
by `proc.start()` or a failed readiness wait — the process handle is
removed from the state before the error propagates, so the record is back
in the Absent state (`'proc'` not in state) and a subsequent call attempts
a fresh spawn; the record is never left holding a handle for a process
that failed to start. -/
theorem C1_ensure_process_rollback (name : String) (b next : ProcBehavior)
    (s : SupState) (e : PyError)
    (h : (ensure_process name b s).outcome = .error e) :
    (ensure_process name b s).newState.proc = none ∧
    (ensure_process name next ((ensure_process name b s).newState)).spawned = true := by
  have h1 : (ensure_process name b s).newState.proc = none := by
    obtain ⟨p⟩ := s
    cases p with
    | some q => simp [ensure_process] at h
    | none =>
      obtain ⟨st, rd, kl⟩ := b
      cases st with
      | raise m => rfl
      | ok =>
        cases rd with
        | raise m => rfl
        | ready br =>
          cases br with
          | true => simp [ensure_process] at h
          | false => cases kl with
            | raise m => rfl
            | ok => rfl
  refine ⟨h1, ?_⟩
  have h2 : (ensure_process name b s).newState = { proc := none } := by rw [← h1]
  rw [h2]
  exact ensure_absent_spawns name next

/-- Witness for C1: a concrete spawn failure rolls the record back and
the next call spawns afresh. -/
theorem C1_witness :
    (ensure_process "process" ⟨.raise "boom", .ready true, .ok⟩ ⟨none⟩).newState.proc = none ∧
    (ensure_process "process" ⟨.ok, .ready true, .ok⟩
      ((ensure_process "process" ⟨.raise "boom", .ready true, .ok⟩ ⟨none⟩).newState)).spawned = true :=
  C1_ensure_process_rollback "process" ⟨.raise "boom", .ready true, .ok⟩
    ⟨.ok, .ready true, .ok⟩ ⟨none⟩ (.exn "boom") rfl

/-- Claim C2: when the readiness probe has not succeeded by the time the
readiness timeout (default 5 time units, from `get_timeout`) elapses,
`ensure_process` kills the spawned process and raises
`HTTPError(500, 'could not start {name} in time')` — a 500 response —
with the record returned to Absent. -/
theorem C2_readiness_timeout (name : String) (probe : Nat → Bool) (s : SupState)
    (hs : s.proc = none) (hp : ∀ t, probe t = false) :
    get_timeout = 5 ∧
    (ensure_process name ⟨.ok, .ready (readyPoll probe get_timeout), .ok⟩ s).killed = true ∧
    (ensure_process name ⟨.ok, .ready (readyPoll probe get_timeout), .ok⟩ s).outcome
      = .error (.httpError 500 ("could not start " ++ name ++ " in time")) ∧
    (ensure_process name ⟨.ok, .ready (readyPoll probe get_timeout), .ok⟩ s).newState.proc = none := by
  have hs2 : s = { proc := none } := by rw [← hs]
  subst hs2
  have hrp : readyPoll probe get_timeout = false := by
    simp [readyPoll, hp]
  rw [hrp]
  exact ⟨rfl, rfl, rfl, rfl⟩

/-- Witness for C2: a probe that never reports ready leads to kill,
a 500 `HTTPError`, and an Absent record. -/
theorem C2_witness :
    get_timeout = 5 ∧
    (ensure_process "process"
      ⟨.ok, .ready (readyPoll (fun _ => false) get_timeout), .ok⟩ ⟨none⟩).killed = true ∧
    (ensure_process "process"
      ⟨.ok, .ready (readyPoll (fun _ => false) get_timeout), .ok⟩ ⟨none⟩).outcome
      = .error (.httpError 500 ("could not start " ++ "process" ++ " in time")) ∧
    (ensure_process "process"
      ⟨.ok, .ready (readyPoll (fun _ => false) get_timeout), .ok⟩ ⟨none⟩).newState.proc = none :=
  C2_readiness_timeout "process" (fun _ => false) ⟨none⟩ rfl (fun _ => rfl)

/-- Claim C3: when a process handle already exists in the state,
`ensure_process` returns success immediately, without spawning and
without modifying the state (idempotent fast path); and in any sequence
of calls on the same target whose first call succeeds, at most one spawn
occurs. -/
theorem C3_fastpath_single_flight (name : String) (s : SupState)
    (b : ProcBehavior) (bs : List ProcBehavior) :
    (∀ p, s.proc = some p →
      ensure_process name b s =
        { newState := s, outcome := .ok (), spawned := false, killed := false }) ∧
    ((ensure_process name b s).outcome = .ok () →
      spawnCount name (b :: bs) s ≤ 1) := by
  constructor
  · intro p hp
    have hs2 : s = { proc := some p } := by rw [← hp]
    subst hs2
    rfl
  · intro hok
    have h1 : (ensure_process name b s).newState.proc.isSome = true :=
      ensure_ok_proc_isSome name b s hok
    obtain ⟨q, hq⟩ := Option.isSome_iff_exists.mp h1
    have h2 : (ensure_process name b s).newState = { proc := some q } := by rw [← hq]
    simp only [spawnCount, runEnsure]
    rw [h2, runEnsure_present]
    cases hsp : (ensure_process name b s).spawned <;> simp [hsp]

/-- Witness for C3: the fast path on a present record, and a two-call
sequence with at most one spawn. -/
theorem C3_witness :
    (ensure_process "process" ⟨.ok, .ready true, .ok⟩ ⟨some ⟨.ok, .ready true, .ok⟩⟩ =
      { newState := ⟨some ⟨.ok, .ready true, .ok⟩⟩, outcome := .ok (),
        spawned := false, killed := false }) ∧
    spawnCount "process" [⟨.ok, .ready true, .ok⟩, ⟨.ok, .ready true, .ok⟩]
      ⟨some ⟨.ok, .ready true, .ok⟩⟩ ≤ 1 :=
  ⟨(C3_fastpath_single_flight "process" ⟨some ⟨.ok, .ready true, .ok⟩⟩
      ⟨.ok, .ready true, .ok⟩ [⟨.ok, .ready true, .ok⟩]).1 ⟨.ok, .ready true, .ok⟩ rfl,
   (C3_fastpath_single_flight "process" ⟨some ⟨.ok, .ready true, .ok⟩⟩
      ⟨.ok, .ready true, .ok⟩ [⟨.ok, .ready true, .ok⟩]).2 rfl⟩


/-! ## Forwarding lemmas and claims -/

theorem build_body (cfg : HandlerCfg) (req : InboundRequest) (port : Nat)
    (path : String) (body : Option Bytes) (o : OutRequest)
    (h : build_proxy_request cfg req port path body = .ok o) :
    o.body = body := by
  simp only [build_proxy_request] at h
  split at h
  · exact absurd h (by simp)
  · injection h with h2
    subst h2
    rfl

theorem proxy_build (cfg : HandlerCfg) (req : InboundRequest) (port : Nat)
    (path : String) (resp : FetchResp) (r : ProxyResult)
    (hr : proxy cfg req port path resp = .ok r) :
    build_proxy_request cfg { req with headers := removeHeader req.headers "Proxy-Connection" }
      port path (computeBody req.method req.body) = .ok r.outReq := by
  simp only [proxy] at hr
  split at hr
  · exact absurd hr (by simp)
  · split at hr <;> (injection hr with h; subst h; assumption)

theorem proxy_transport (cfg : HandlerCfg) (req : InboundRequest) (port : Nat)
    (path : String) (resp : FetchResp) (r : ProxyResult) (d : String)
    (herr : resp.error = some (.transport d))
    (hr : proxy cfg req port path resp = .ok r) :
    r.statusHistory =
      (if lowerAscii (getHeaderD (removeHeader req.headers "Proxy-Connection") "Upgrade" "")
          = "websocket" then [(500, (none : Option String))] else []) ++ [(500, none)] ∧
    r.headers = [] ∧
    r.chunks = [Chunk.text d] := by
  simp only [proxy, herr] at hr
  split at hr
  · exact absurd hr (by simp)
  · injection hr with h
    subst h
    exact ⟨rfl, rfl, rfl⟩

theorem proxy_relay (cfg : HandlerCfg) (req : InboundRequest) (port : Nat)
    (path : String) (resp : FetchResp) (r : ProxyResult)
    (he : ∀ d, resp.error ≠ some (.transport d))
    (hr : proxy cfg req port path resp = .ok r) :
    r.statusHistory =
      (if lowerAscii (getHeaderD (removeHeader req.headers "Proxy-Connection") "Upgrade" "")
          = "websocket" then [(500, (none : Option String))] else [])
        ++ [(resp.code, some resp.reason)] ∧
    r.headers = resp.headers.filter (fun p => decide (p.1 ∉ responseStripHeaders)) ∧
    r.chunks = (if resp.body = [] then [] else [Chunk.bytes resp.body]) := by
  cases herr : resp.error with
  | none =>
    simp only [proxy, herr] at hr
    split at hr
    · exact absurd hr (by simp)
    · injection hr with h
      subst h
      exact ⟨rfl, rfl, rfl⟩
  | some fe =>
    cases fe with
    | transport d => exact absurd herr (he d)
    | httpError c =>
      simp only [proxy, herr] at hr
      split at hr
      · exact absurd hr (by simp)
      · injection hr with h
        subst h
        exact ⟨rfl, rfl, rfl⟩

/-- Claim C4: a backend fetch that ends in a transport-level failure (an
error that is not a `tornado.httpclient.HTTPError`) yields status 500 with
the error's textual description as the body; a response carrying any HTTP
status (error set to an `HTTPError` for non-2xx, or no error at all) is
relayed with its original status code and reason phrase, never converted
into an internal error. -/
theorem C4_error_policy (cfg : HandlerCfg) (req : InboundRequest) (port : Nat)
    (path : String) (resp : FetchResp) (r : ProxyResult)
    (hr : proxy cfg req port path resp = .ok r) :
    (∀ d, resp.error = some (.transport d) →
      finalStatus r = 500 ∧ r.chunks = [Chunk.text d]) ∧
    ((resp.error = none ∨ ∃ c, resp.error = some (.httpError c)) →
      finalStatus r = resp.code ∧ finalReason r = some resp.reason) := by
  constructor
  · intro d hd
    obtain ⟨h1, h2, h3⟩ := proxy_transport cfg req port path resp r d hd hr
    refine ⟨?_, h3⟩
    simp [finalStatus, h1, List.getLast?_concat]
  · intro hcase
    have he : ∀ d, resp.error ≠ some (.transport d) := by
      intro d hd
      cases hcase with
      | inl h0 => rw [h0] at hd; exact Option.noConfusion hd
      | inr h0 =>
        obtain ⟨c, hc⟩ := h0
        rw [hc] at hd
        simp at hd
    obtain ⟨h1, h2, h3⟩ := proxy_relay cfg req port path resp r he hr
    constructor
    · simp [finalStatus, h1, List.getLast?_concat]
    · simp [finalReason, h1, List.getLast?_concat]

/-- Witness for C4: a concrete transport failure surfaces as 500 carrying
the description. -/
theorem C4_witness :
    finalStatus ⟨⟨"http://localhost:8000/b/pb/x", "GET", none, [], false⟩,
      [(500, none)], [], [Chunk.text "boom"]⟩ = 500 ∧
    ProxyResult.chunks ⟨⟨"http://localhost:8000/b/pb/x", "GET", none, [], false⟩,
      [(500, none)], [], [Chunk.text "boom"]⟩ = [Chunk.text "boom"] :=
  (C4_error_policy ⟨"/b", "/pb", ""⟩ ⟨"GET", [], [], ""⟩ 8000 "/x"
      ⟨200, "OK", [], [], some (.transport "boom")⟩
      ⟨⟨"http://localhost:8000/b/pb/x", "GET", none, [], false⟩,
        [(500, none)], [], [Chunk.text "boom"]⟩ rfl).1 "boom" rfl

/-- Claim C7: the response `proxy` relays never contains a
`Content-Length`, `Transfer-Encoding`, `Content-Encoding`, or `Connection`
header copied from the backend response, while every other backend
response header — repeated headers such as `Set-Cookie` included — is
relayed with its multiplicity. -/
theorem C7_header_stripping (cfg : HandlerCfg) (req : InboundRequest) (port : Nat)
    (path : String) (resp : FetchResp) (r : ProxyResult)
    (he : ∀ d, resp.error ≠ some (.transport d))
    (hr : proxy cfg req port path resp = .ok r) :
    (∀ p ∈ r.headers, p.1 ∉ responseStripHeaders) ∧
    (∀ p : Header, p.1 ∉ responseStripHeaders →
      r.headers.count p = resp.headers.count p) := by
  obtain ⟨h1, h2, h3⟩ := proxy_relay cfg req port path resp r he hr
  constructor
  · intro p hp
    rw [h2] at hp
    exact of_decide_eq_true (List.mem_filter.mp hp).2
  · intro p hp
    rw [h2]
    exact List.count_filter (decide_eq_true hp)

/-- Witness for C7: a backend response with `Content-Length` and two
`Set-Cookie` headers keeps the cookie multiplicity. -/
theorem C7_witness :
    (ProxyResult.headers ⟨⟨"http://localhost:8000/b/pb/x", "GET", none, [], false⟩,
        [(200, some "OK")], [("Set-Cookie", "a"), ("Set-Cookie", "b")], []⟩).count
        ("Set-Cookie", "a")
      = (([("Content-Length", "3"), ("Set-Cookie", "a"), ("Set-Cookie", "b")] :
          Headers).count ("Set-Cookie", "a")) :=
  (C7_header_stripping ⟨"/b", "/pb", ""⟩ ⟨"GET", [], [], ""⟩ 8000 "/x"
      ⟨200, "OK", [("Content-Length", "3"), ("Set-Cookie", "a"), ("Set-Cookie", "b")], [], none⟩
      ⟨⟨"http://localhost:8000/b/pb/x", "GET", none, [], false⟩,
        [(200, some "OK")], [("Set-Cookie", "a"), ("Set-Cookie", "b")], []⟩
      (fun d h => Option.noConfusion h) rfl).2 ("Set-Cookie", "a") (by decide)

/-- Claim C9: when the inbound request body is empty at the transport
level, the body handed to the outbound request is determined solely by the
method: `b''` for POST, and no body at all for every other method. -/
theorem C9_empty_body (cfg : HandlerCfg) (req : InboundRequest) (port : Nat)
    (path : String) (resp : FetchResp) (r : ProxyResult)
    (hb : req.body = []) (hr : proxy cfg req port path resp = .ok r) :
    r.outReq.body = (if req.method = "POST" then some ([] : Bytes) else none) := by
  have h4 := proxy_build cfg req port path resp r hr
  have hob := build_body _ _ _ _ _ _ h4
  rw [hob]
  simp [computeBody, hb]

/-- Witness for C9: an empty-bodied POST is forwarded with body `b''`. -/
theorem C9_witness :
    OutRequest.body ⟨"http://localhost:8000/b/pb/x", "POST", some [], [], false⟩
      = (if ("POST" : String) = "POST" then some ([] : Bytes) else none) :=
  C9_empty_body ⟨"/b", "/pb", ""⟩ ⟨"POST", [], [], ""⟩ 8000 "/x"
    ⟨200, "OK", [], [], none⟩
    ⟨⟨"http://localhost:8000/b/pb/x", "POST", some [], [], false⟩,
      [(200, some "OK")], [], []⟩ rfl rfl

/-- Claim C10: a non-GET request carrying `Upgrade: websocket` makes
`proxy` set status 500 but not stop: the request is still forwarded, and
when the backend fetch completes without a transport error its status code
overwrites the 500, so the caller observes the backend's response rather
than an error. -/
theorem C10_upgrade_500_overwritten (cfg : HandlerCfg) (req : InboundRequest)
    (port : Nat) (path : String) (resp : FetchResp) (r : ProxyResult)
    (hm : req.method ≠ "GET")
    (hu : lowerAscii (getHeaderD (removeHeader req.headers "Proxy-Connection")
      "Upgrade" "") = "websocket")
    (he : ∀ d, resp.error ≠ some (.transport d))
    (hr : proxy cfg req port path resp = .ok r) :
    r.statusHistory = [(500, none), (resp.code, some resp.reason)] ∧
    finalStatus r = resp.code := by
  obtain ⟨h1, h2, h3⟩ := proxy_relay cfg req port path resp r he hr
  have h1x : r.statusHistory = [(500, none), (resp.code, some resp.reason)] := by
    rw [h1, if_pos hu]
    rfl
  refine ⟨h1x, ?_⟩
  simp [finalStatus, h1x]

/-- Witness for C10: a POST with `Upgrade: websocket` whose backend fetch
returns 204 ends with status 204 after the transient 500. -/
theorem C10_witness :
    ProxyResult.statusHistory ⟨⟨"http://localhost:8000/b/pb/x", "POST", some [],
        [("Upgrade", "websocket")], false⟩,
      [(500, none), (204, some "No Content")], [], []⟩
      = [(500, none), (204, some "No Content")] ∧
    finalStatus ⟨⟨"http://localhost:8000/b/pb/x", "POST", some [],
        [("Upgrade", "websocket")], false⟩,
      [(500, none), (204, some "No Content")], [], []⟩ = 204 :=
  C10_upgrade_500_overwritten ⟨"/b", "/pb", ""⟩
    ⟨"POST", [("Upgrade", "websocket")], [], ""⟩ 8000 "/x"
    ⟨204, "No Content", [], [], none⟩
    ⟨⟨"http://localhost:8000/b/pb/x", "POST", some [],
        [("Upgrade", "websocket")], false⟩,
      [(500, none), (204, some "No Content")], [], []⟩
    (by decide) rfl (fun d h => Option.noConfusion h) rfl


/-! ## Path rewriting and WebSocket claims -/

theorem hasHeader_removeHeader_other (hs : Headers) (n m : String) (h : m ≠ n) :
    hasHeader (removeHeader hs n) m = hasHeader hs m := by
  simp only [hasHeader, removeHeader, List.any_filter]
  induction hs with
  | nil => rfl
  | cons p ps ih =>
    simp only [List.any_cons, ih]
    by_cases hp : p.1 = m
    · subst hp
      simp [h]
    · have hm2 : (p.1 == m) = false := by simp [hp]
      simp [hm2]

theorem hasHeader_setHeader_self (hs : Headers) (n v : String) :
    hasHeader (setHeader hs n v) n = true := by
  simp [setHeader, hasHeader, List.any_append]

theorem hasHeader_setHeader_other (hs : Headers) (n v m : String) (h : m ≠ n) :
    hasHeader (setHeader hs n v) m = hasHeader hs m := by
  simp only [setHeader, hasHeader, removeHeader, List.any_append, List.any_filter]
  have hrem := hasHeader_removeHeader_other hs n m h
  simp only [hasHeader, removeHeader, List.any_filter] at hrem
  rw [hrem]
  simp [Ne.symm h]

/-- Claim C5: for a passthrough target (`rewrite = '/'`) with base `/app`
and no proxy base, forwarding subpath `/foo` with query `x=1` to port 9000
builds outbound URI `http://localhost:9000/foo?x=1` and injects both
`X-Forwarded-Context` and `X-ProxyContextPath` with value
`/app/proxy/9000`; and among the two supported rewrite modes, the two
forwarding-context headers are injected exactly in passthrough mode. -/
theorem C5_passthrough_rewrite :
    (build_proxy_request ⟨"/app", "", "/"⟩ ⟨"GET", [], [], "x=1"⟩ 9000 "/foo" none =
      .ok ⟨"http://localhost:9000/foo?x=1", "GET", none,
        [("X-Forwarded-Context", "/app/proxy/9000"),
         ("X-ProxyContextPath", "/app/proxy/9000")], false⟩) ∧
    (∀ (cfg : HandlerCfg) (req : InboundRequest) (port : Nat) (path : String)
        (body : Option Bytes) (o : OutRequest),
      cfg.rewrite = "/" ∨ cfg.rewrite = "" →
      hasHeader req.headers "X-Forwarded-Context" = false →
      hasHeader req.headers "X-ProxyContextPath" = false →
      build_proxy_request cfg req port path body = .ok o →
      ((hasHeader o.headers "X-Forwarded-Context" = true ∧
        hasHeader o.headers "X-ProxyContextPath" = true) ↔ cfg.rewrite = "/")) := by
  constructor
  · rfl
  · intro cfg req port path body o hrw hf hp hok
    rcases hctx : get_context_path cfg port with e | ctx
    · rw [build_proxy_request, hctx] at hok
      exact absurd hok (by simp)
    · rw [build_proxy_request, hctx] at hok
      injection hok with h
      subst h
      have hne : ("X-Forwarded-Context" : String) ≠ "X-ProxyContextPath" := by decide
      cases hrw with
      | inl h1 =>
        simp only [h1, OutRequest.headers]
        rw [if_pos (show ("/" : String) ≠ "" by decide)]
        rw [hasHeader_setHeader_other _ _ _ _ hne, hasHeader_setHeader_self,
          hasHeader_setHeader_self]
        simp
      | inr h1 =>
        simp only [h1, OutRequest.headers]
        simp [proxy_request_headers, hf, hp]

/-- Witness for C5: the injection equivalence instantiated at the
passthrough example target. -/
theorem C5_witness :
    (hasHeader (OutRequest.headers ⟨"http://localhost:9000/foo?x=1", "GET", none,
        [("X-Forwarded-Context", "/app/proxy/9000"),
         ("X-ProxyContextPath", "/app/proxy/9000")], false⟩) "X-Forwarded-Context" = true ∧
     hasHeader (OutRequest.headers ⟨"http://localhost:9000/foo?x=1", "GET", none,
        [("X-Forwarded-Context", "/app/proxy/9000"),
         ("X-ProxyContextPath", "/app/proxy/9000")], false⟩) "X-ProxyContextPath" = true) ↔
      ("/" : String) = "/" :=
  C5_passthrough_rewrite.2 ⟨"/app", "", "/"⟩ ⟨"GET", [], [], "x=1"⟩ 9000 "/foo" none
    ⟨"http://localhost:9000/foo?x=1", "GET", none,
      [("X-Forwarded-Context", "/app/proxy/9000"),
       ("X-ProxyContextPath", "/app/proxy/9000")], false⟩
    (Or.inl rfl) rfl rfl C5_passthrough_rewrite.1

/-- Counterexample to claim C6 as stated: with an explicit proxy base
configured, an unsupported rewrite value (`"bogus"`) does NOT fail —
`_get_context_path` returns the proxy-base context before ever checking
the rewrite mode, and the outbound request is built. -/
theorem C6_counterexample :
    build_proxy_request ⟨"/app", "/pb", "bogus"⟩ ⟨"GET", [], [], ""⟩ 9000 "/x" none =
      .ok ⟨"http://localhost:9000/x", "GET", none,
        [("X-Forwarded-Context", "/app/pb"), ("X-ProxyContextPath", "/app/pb")],
        false⟩ := rfl

/-- Claim C6 (amended): when NO proxy base is configured, a rewrite mode
other than the two supported values (`'/'` passthrough, `''` absolute)
makes building the outbound request fail at request time with
`ValueError('Unsupported rewrite: ...')`; with a proxy base configured the
rewrite value is not validated. -/
theorem C6_amended_unsupported_rewrite (cfg : HandlerCfg) (req : InboundRequest)
    (port : Nat) (path : String) (body : Option Bytes)
    (h1 : cfg.proxy_base = "") (h2 : cfg.rewrite ≠ "/") (h3 : cfg.rewrite ≠ "") :
    build_proxy_request cfg req port path body =
      .error (.valueError ("Unsupported rewrite: \"" ++ cfg.rewrite ++ "\"")) := by
  have hctx : get_context_path cfg port =
      .error (.valueError ("Unsupported rewrite: \"" ++ cfg.rewrite ++ "\"")) := by
    simp [get_context_path, h1, h2, h3]
  rw [build_proxy_request, hctx]

/-- Witness for the amended C6 at a concrete misconfigured target. -/
theorem C6_amended_witness :
    build_proxy_request ⟨"/app", "", "bogus"⟩ ⟨"GET", [], [], ""⟩ 9000 "/x" none =
      .error (.valueError ("Unsupported rewrite: \"" ++ "bogus" ++ "\"")) :=
  C6_amended_unsupported_rewrite ⟨"/app", "", "bogus"⟩ ⟨"GET", [], [], ""⟩ 9000 "/x"
    none rfl (by decide) (by decide)

/-- Counterexample to claim C8 as stated: the outbound WebSocket URI uses
host `127.0.0.1`, not `localhost`, so for port 9000 and path `/a` the
built URI differs from the claimed `ws://localhost:9000/a`. -/
theorem C8_counterexample :
    (openRequest ⟨"GET", [], [], ""⟩ 9000 "/a").url = "ws://127.0.0.1:9000/a" ∧
    "ws://127.0.0.1:9000/a" ≠ ("ws://localhost:9000/a" : String) :=
  ⟨rfl, by decide⟩

/-- Claim C8 (amended): when a front-facing WebSocket connection is opened
for port `p` and slash-led path `q`, the outbound backend WebSocket
request targets `ws://127.0.0.1:<p><q>[?query]` and carries the original
request's headers. -/
theorem C8_amended_ws_uri (req : InboundRequest) (port : Nat) (path : String)
    (hp : startsWithSlash path = true) :
    (openRequest req port path).headers = req.headers ∧
    (openRequest req port path).url =
      (if req.query = "" then "ws://127.0.0.1:" ++ toString port ++ path
       else "ws://127.0.0.1:" ++ toString port ++ path ++ "?" ++ req.query) := by
  refine ⟨rfl, ?_⟩
  simp only [openRequest, wsClientUri, hp, if_true]
  by_cases hq : req.query = ""
  · simp [hq]
  · simp [hq]

/-- Witness for the amended C8 at a concrete port, path, query and header
set. -/
theorem C8_amended_witness :
    (openRequest ⟨"GET", [("A", "b")], [], "x=1"⟩ 9000 "/a").headers = [("A", "b")] ∧
    (openRequest ⟨"GET", [("A", "b")], [], "x=1"⟩ 9000 "/a").url =
      (if ("x=1" : String) = "" then "ws://127.0.0.1:" ++ toString (9000 : Nat) ++ "/a"
       else "ws://127.0.0.1:" ++ toString (9000 : Nat) ++ "/a" ++ "?" ++ "x=1") :=
  C8_amended_ws_uri ⟨"GET", [("A", "b")], [], "x=1"⟩ 9000 "/a" rfl

end QPod
